import Mathlib

/-
Shallow embedding of conatus/literal-tools (src/main.py), a CLI client for
the Literal book service.  External effects (HTTP responses, the credential
file, interactive prompts, chmod) are modelled as explicit environment
values; each Python function becomes a pure Lean function of that
environment, returning a record of its observable behaviour (value
returned or exit code, number of interactive login prompts, whether the
validation probe was sent, the final state of the credential file, and
whether the persist-failure warning was printed).
-/

namespace LiteralTools

/-- ANSI italic escape code, `"\033[3m"` in main.py. -/
def ITALIC : String := "\x1b[3m"

/-- ANSI reset escape code, `"\033[0m"` in main.py. -/
def RESET : String := "\x1b[0m"

/-- The fixed credential-file path, `Path.home() / ".literal_token"`. -/
def TOKEN_FILE : String := "~/.literal_token"

/-- Python truthiness of `token_data.get(key)`: `none` models a missing key
(`.get` returns `None`), and an empty string is falsy. -/
def truthy : Option String → Bool
  | none => false
  | some s => !(s == "")

/-- What reading the credential file observes (main.py lines 145-151):
the file may be absent (`TOKEN_FILE.exists()` false), opening or
`json.load` may raise (caught at line 178), or it parses and yields the
values of the `token` and `profile_id` keys (`none` when a key is
missing). -/
inductive FileRead where
  | absent : FileRead
  | readError : FileRead
  | content : Option String → Option String → FileRead
deriving DecidableEq

/-- The HTTP response to the validation probe (the `me { email }` query,
main.py lines 159-168): its status code, and whether its body carries an
application-level `errors` list (which the code never inspects). -/
structure ProbeResp where
  status : Nat
  hasErrors : Bool
deriving DecidableEq

/-- The JSON body of a 200 login response (main.py lines 208-214): whether
the `errors` key is present, and the token / profile id under
`data.login`. -/
structure LoginBody where
  hasErrors : Bool
  token : String
  profile_id : String
deriving DecidableEq

/-- Outcome of the persist step (main.py lines 216-221): the `open`/`dump`
may raise before anything durable is written, the `os.chmod` may raise
after the file is written, or both succeed. -/
inductive PersistOutcome where
  | ok : PersistOutcome
  | chmodFailed : PersistOutcome
  | writeFailed : PersistOutcome
deriving DecidableEq

/-- The environment a `get_token` run observes: the credential-file read,
the probe response, the prompted email and password, the login response
(status and parsed body), the persist outcome, and the `--debug` flag. -/
structure Env where
  file : FileRead
  probe : ProbeResp
  email : String
  password : String
  loginStatus : Nat
  loginBody : LoginBody
  persist : PersistOutcome
  debug : Bool
deriving DecidableEq

/-- How a `get_token` run ends: it returns a `(token, profile_id)` pair,
or the process terminates via `exit(code)`. -/
inductive Outcome where
  | returned : String → String → Outcome
  | exited : Nat → Outcome
deriving DecidableEq

/-- Final state of the credential file at `TOKEN_FILE`: untouched since
the start of the run, or overwritten with
`{"token": token, "profile_id": profile_id}` and possibly re-chmodded
(`perms = some 0o600` when the chmod succeeded, `none` when it raised
after the write). -/
inductive Disk where
  | initial : Disk
  | saved : String → String → Option Nat → Disk
deriving DecidableEq

/-- Observable behaviour of one `get_token` run. -/
structure RunResult where
  outcome : Outcome
  prompts : Nat
  probed : Bool
  disk : Disk
  persistWarned : Bool
deriving DecidableEq

/-- The load-and-validate phase of `get_token` (main.py lines 145-179):
yields the stored pair when the file parses, both values are truthy, and
the probe returns status 200; the Bool records whether the probe request
was sent at all (it is sent exactly when both values are truthy). -/
def loadStep (env : Env) : Option (String × String) × Bool :=
  match env.file with
  | FileRead.absent => (none, false)
  | FileRead.readError => (none, false)
  | FileRead.content tok pid =>
      if truthy tok && truthy pid then
        (if env.probe.status == 200 then some (tok.getD "", pid.getD "") else none, true)
      else
        (none, false)

/-- The interactive-login phase of `get_token` (main.py lines 181-223):
prompts once for email and password, posts the login mutation, calls
`exit(1)` on a non-200 status or on an `errors` key in the body, and
otherwise persists the new credential best-effort (the warning on persist
failure is printed through `debug_print`, so only under `--debug`) and
returns the fresh pair. -/
def loginStep (env : Env) (probed : Bool) : RunResult :=
  if env.loginStatus == 200 then
    if env.loginBody.hasErrors then
      { outcome := Outcome.exited 1, prompts := 1, probed := probed,
        disk := Disk.initial, persistWarned := false }
    else
      { outcome := Outcome.returned env.loginBody.token env.loginBody.profile_id,
        prompts := 1, probed := probed,
        disk :=
          match env.persist with
          | PersistOutcome.ok =>
              Disk.saved env.loginBody.token env.loginBody.profile_id (some 0o600)
          | PersistOutcome.chmodFailed =>
              Disk.saved env.loginBody.token env.loginBody.profile_id none
          | PersistOutcome.writeFailed => Disk.initial,
        persistWarned :=
          env.debug &&
            (match env.persist with
             | PersistOutcome.ok => false
             | _ => true) }
  else
    { outcome := Outcome.exited 1, prompts := 1, probed := probed,
      disk := Disk.initial, persistWarned := false }

/-- `get_token` (main.py lines 143-223): reuse a stored credential that
passes validation, otherwise fall through to the interactive login. -/
def get_token (env : Env) : RunResult :=
  match loadStep env with
  | (some (t, p), probed) =>
      { outcome := Outcome.returned t p, prompts := 0, probed := probed,
        disk := Disk.initial, persistWarned := false }
  | (none, probed) => loginStep env probed

/-- Payload of `signedUrlForCoverUpload` (main.py lines 30-56). -/
structure SignedUrlData where
  signedUrl : String
  key : String
  fileName : String
deriving DecidableEq

/-- A response to one structured GraphQL POST: status code, whether the
body carries an `errors` list, and the operation payload extracted when it
does not. -/
structure GraphResp (α : Type) where
  status : Nat
  hasErrors : Bool
  payload : α
deriving DecidableEq

/-- `get_signed_cover_url` (main.py lines 20-60): returns the payload on a
200 response without errors, `None` on errors or a non-200 status. -/
def get_signed_cover_url (resp : GraphResp SignedUrlData) : Option SignedUrlData :=
  if resp.status == 200 then
    if resp.hasErrors then none else some resp.payload
  else
    none

/-- What `upload_cover_image` observes (main.py lines 225-252): opening
the image file or the PUT may raise, otherwise a status code comes back. -/
inductive UploadEnv where
  | ioError : UploadEnv
  | resp : Nat → UploadEnv
deriving DecidableEq

/-- `upload_cover_image` (main.py lines 225-252): true exactly on a 200
PUT response; any raised exception is caught and yields false. -/
def upload_cover_image : UploadEnv → Bool
  | UploadEnv.ioError => false
  | UploadEnv.resp s => s == 200

/-- The fields of a created book the code reads back (main.py lines
114-120); only its presence matters to the claims. -/
structure CreatedBook where
  id : String
  title : String
deriving DecidableEq

/-- `create_book` (main.py lines 62-141): returns the `createBook`
payload on a 200 response without errors, `None` otherwise.  The
`book_data` dict is sent as the variables and not read locally. -/
def create_book (resp : GraphResp CreatedBook) : Option CreatedBook :=
  if resp.status == 200 then
    if resp.hasErrors then none else some resp.payload
  else
    none

/-- `book_data` is a Python dict; we model it as an insertion-ordered
association list and `d[k] = v` as `dictSet` (replace in place if the key
exists, append otherwise), matching CPython dict semantics. -/
def dictSet : List (String × String) → String → String → List (String × String)
  | [], k, v => [(k, v)]
  | (k', v') :: rest, k, v =>
      if k' = k then (k, v) :: rest else (k', v') :: dictSet rest k v

/-- Dict lookup, first match wins (keys are unique under `dictSet`). -/
def dictGet : List (String × String) → String → Option String
  | [], _ => none
  | (k', v) :: rest, k => if k' = k then some v else dictGet rest k

/-- Prefix of the cover URL built at main.py line 278. -/
def coverUrlBase : String := "https://literal.club/covers/"

/-- Environment of one `create_book_with_cover` run: the signed-URL
response, the upload outcome, and the book-creation response. -/
structure CbcEnv where
  signedResp : GraphResp SignedUrlData
  upload : UploadEnv
  createResp : GraphResp CreatedBook
deriving DecidableEq

/-- Observable behaviour of `create_book_with_cover`: its return value,
the final state of the caller-owned `book_data` dict, whether the
book-creation POST happened, and the variables it was sent with. -/
structure CbcResult where
  result : Option CreatedBook
  bookData : List (String × String)
  createCalled : Bool
  createVars : Option (List (String × String))
deriving DecidableEq

/-- `create_book_with_cover` (main.py lines 254-280): fetch a signed URL,
upload the cover, then mutate `book_data["cover"]` to the derived URL and
create the book; any early failure returns `None` without calling
`create_book` or touching `book_data`. -/
def create_book_with_cover (env : CbcEnv) (book_data : List (String × String)) : CbcResult :=
  match get_signed_cover_url env.signedResp with
  | none =>
      { result := none, bookData := book_data, createCalled := false, createVars := none }
  | some sud =>
      if upload_cover_image env.upload then
        let bd := dictSet book_data "cover" (coverUrlBase ++ sud.key)
        { result := create_book env.createResp, bookData := bd,
          createCalled := true, createVars := some bd }
      else
        { result := none, bookData := book_data, createCalled := false, createVars := none }

/-- An author record in the reading-list response (main.py lines 366-369). -/
structure Author where
  name : String
deriving DecidableEq

/-- A book record in the reading-list response (main.py lines 363-370);
`subtitle` is `none` when the key is missing or null. -/
structure Book where
  title : String
  subtitle : Option String
  authors : List Author
deriving DecidableEq

/-- One output line of the reading-list display (main.py lines 396-399):
`", ".join(names) if book["authors"] else "Unknown Author"`, then
`f"{authors} - {ITALIC}{title}{subtitle}{RESET}"` where the subtitle
segment is `f": {subtitle}"` when `book.get("subtitle")` is truthy and
empty otherwise. -/
def renderBookLine (b : Book) : String :=
  let authors :=
    if b.authors.isEmpty then "Unknown Author"
    else String.intercalate ", " (b.authors.map Author.name)
  let subtitleSeg :=
    match b.subtitle with
    | some s => if s == "" then "" else ": " ++ s
    | none => ""
  authors ++ " - " ++ ITALIC ++ b.title ++ subtitleSeg ++ RESET

/-- The authors segment as the spec words it: the comma-plus-space join of
the author names, or the literal "Unknown Author" when the list is empty. -/
def authorsSegment (authors : List Author) : String :=
  if authors = [] then "Unknown Author"
  else String.intercalate ", " (authors.map Author.name)

/-- Concrete run: valid stored credential, probe answers 200. -/
def envValid : Env :=
  { file := FileRead.content (some "tok0") (some "pid0"),
    probe := { status := 200, hasErrors := false },
    email := "user@example.com", password := "pw",
    loginStatus := 500, loginBody := { hasErrors := false, token := "lt0", profile_id := "lp0" },
    persist := PersistOutcome.ok, debug := false }

/-- Concrete run: valid stored credential, probe answers 200 but with an
application-level errors list in its body. -/
def envProbeErrs : Env :=
  { file := FileRead.content (some "tok0") (some "pid0"),
    probe := { status := 200, hasErrors := true },
    email := "user@example.com", password := "pw",
    loginStatus := 500, loginBody := { hasErrors := false, token := "lt0", profile_id := "lp0" },
    persist := PersistOutcome.ok, debug := false }

/-- Concrete run: stored credential present but the probe answers 401;
the subsequent login succeeds and persists. -/
def envProbeFail : Env :=
  { file := FileRead.content (some "tok0") (some "pid0"),
    probe := { status := 401, hasErrors := false },
    email := "user@example.com", password := "pw",
    loginStatus := 200, loginBody := { hasErrors := false, token := "lt0", profile_id := "lp0" },
    persist := PersistOutcome.ok, debug := false }

/-- Concrete run: credential file absent, login succeeds and persists. -/
def envAbsent : Env :=
  { file := FileRead.absent,
    probe := { status := 200, hasErrors := false },
    email := "user@example.com", password := "pw",
    loginStatus := 200, loginBody := { hasErrors := false, token := "lt0", profile_id := "lp0" },
    persist := PersistOutcome.ok, debug := false }

/-- Concrete run: credential file absent, login answers 500. -/
def envBadLogin : Env :=
  { file := FileRead.absent,
    probe := { status := 200, hasErrors := false },
    email := "user@example.com", password := "pw",
    loginStatus := 500, loginBody := { hasErrors := false, token := "lt0", profile_id := "lp0" },
    persist := PersistOutcome.ok, debug := false }

/-- Concrete run: credential file absent, login succeeds, writing the
credential file raises, `--debug` not set. -/
def envWriteFail : Env :=
  { file := FileRead.absent,
    probe := { status := 200, hasErrors := false },
    email := "user@example.com", password := "pw",
    loginStatus := 200, loginBody := { hasErrors := false, token := "lt0", profile_id := "lp0" },
    persist := PersistOutcome.writeFailed, debug := false }

/-- Concrete run: like `envWriteFail` but with `--debug` set. -/
def envWriteFailDebug : Env :=
  { file := FileRead.absent,
    probe := { status := 200, hasErrors := false },
    email := "user@example.com", password := "pw",
    loginStatus := 200, loginBody := { hasErrors := false, token := "lt0", profile_id := "lp0" },
    persist := PersistOutcome.writeFailed, debug := true }

/-- Concrete run: credential file parses but has no `profile_id` key. -/
def envNoKeys : Env :=
  { file := FileRead.content (some "tok0") none,
    probe := { status := 200, hasErrors := false },
    email := "user@example.com", password := "pw",
    loginStatus := 200, loginBody := { hasErrors := false, token := "lt0", profile_id := "lp0" },
    persist := PersistOutcome.ok, debug := false }

/-- Concrete book-creation run where every remote call succeeds. -/
def cbcOk : CbcEnv :=
  { signedResp := { status := 200, hasErrors := false,
                    payload := { signedUrl := "su0", key := "k0", fileName := "fn0" } },
    upload := UploadEnv.resp 200,
    createResp := { status := 200, hasErrors := false,
                    payload := { id := "id0", title := "T0" } } }

/-- Concrete book-creation run where the signed-URL fetch fails (500). -/
def cbcFail : CbcEnv :=
  { signedResp := { status := 500, hasErrors := false,
                    payload := { signedUrl := "su0", key := "k0", fileName := "fn0" } },
    upload := UploadEnv.ioError,
    createResp := { status := 200, hasErrors := false,
                    payload := { id := "id0", title := "T0" } } }

/-- A concrete `book_data` dict. -/
def bd0 : List (String × String) := [("title", "T0"), ("cover", "old")]

/-! Helper lemmas about the load, login and dict operations, shared by the
claims below. -/

theorem loadStep_valid (env : Env) (t p : String)
    (hfile : env.file = FileRead.content (some t) (some p))
    (ht : t ≠ "") (hp : p ≠ "") (hprobe : env.probe.status = 200) :
    loadStep env = (some (t, p), true) := by
  unfold loadStep
  rw [hfile]
  have ht' : truthy (some t) = true := by simp [truthy, ht]
  have hp' : truthy (some p) = true := by simp [truthy, hp]
  simp [ht', hp', hprobe]

theorem loadStep_probe_fail (env : Env) (t p : String)
    (hfile : env.file = FileRead.content (some t) (some p))
    (ht : t ≠ "") (hp : p ≠ "") (hprobe : env.probe.status ≠ 200) :
    loadStep env = (none, true) := by
  unfold loadStep
  rw [hfile]
  have ht' : truthy (some t) = true := by simp [truthy, ht]
  have hp' : truthy (some p) = true := by simp [truthy, hp]
  simp [ht', hp', hprobe]

theorem loadStep_not_truthy (env : Env) (tok pid : Option String)
    (hfile : env.file = FileRead.content tok pid)
    (h : (truthy tok && truthy pid) = false) :
    loadStep env = (none, false) := by
  unfold loadStep
  rw [hfile]
  simp [h]

theorem loadStep_no_file (env : Env)
    (hfile : env.file = FileRead.absent ∨ env.file = FileRead.readError) :
    loadStep env = (none, false) := by
  unfold loadStep
  rcases hfile with h | h <;> rw [h]

theorem get_token_of_loadStep_some (env : Env) (t p : String) (b : Bool)
    (h : loadStep env = (some (t, p), b)) :
    get_token env =
      { outcome := Outcome.returned t p, prompts := 0, probed := b,
        disk := Disk.initial, persistWarned := false } := by
  unfold get_token
  rw [h]

theorem get_token_of_loadStep_none (env : Env) (b : Bool)
    (h : loadStep env = (none, b)) :
    get_token env = loginStep env b := by
  unfold get_token
  rw [h]

theorem loginStep_prompts (env : Env) (b : Bool) : (loginStep env b).prompts = 1 := by
  unfold loginStep
  by_cases hs : env.loginStatus = 200
  · by_cases he : env.loginBody.hasErrors = true
    · simp [hs, he]
    · simp [hs, he]
  · simp [hs]

theorem loginStep_probed (env : Env) (b : Bool) : (loginStep env b).probed = b := by
  unfold loginStep
  by_cases hs : env.loginStatus = 200
  · by_cases he : env.loginBody.hasErrors = true
    · simp [hs, he]
    · simp [hs, he]
  · simp [hs]

theorem loginStep_fail (env : Env) (b : Bool)
    (hbad : env.loginStatus ≠ 200 ∨ env.loginBody.hasErrors = true) :
    loginStep env b =
      { outcome := Outcome.exited 1, prompts := 1, probed := b,
        disk := Disk.initial, persistWarned := false } := by
  unfold loginStep
  by_cases hs : env.loginStatus = 200
  · have he : env.loginBody.hasErrors = true := by
      rcases hbad with h | h
      · exact absurd hs h
      · exact h
    simp [hs, he]
  · simp [hs]

theorem loginStep_success_outcome (env : Env) (b : Bool)
    (hs : env.loginStatus = 200) (he : env.loginBody.hasErrors = false) :
    (loginStep env b).outcome =
      Outcome.returned env.loginBody.token env.loginBody.profile_id := by
  unfold loginStep
  simp [hs, he]

theorem loginStep_disk_ok (env : Env) (b : Bool)
    (hs : env.loginStatus = 200) (he : env.loginBody.hasErrors = false)
    (hper : env.persist = PersistOutcome.ok) :
    (loginStep env b).disk =
      Disk.saved env.loginBody.token env.loginBody.profile_id (some 0o600) := by
  unfold loginStep
  simp [hs, he, hper]

theorem loginStep_disk_unchanged_of_write_fail (env : Env) (b : Bool)
    (hs : env.loginStatus = 200) (he : env.loginBody.hasErrors = false)
    (hper : env.persist = PersistOutcome.writeFailed) :
    (loginStep env b).disk = Disk.initial := by
  unfold loginStep
  simp [hs, he, hper]

theorem loginStep_warned (env : Env) (b : Bool)
    (hs : env.loginStatus = 200) (he : env.loginBody.hasErrors = false)
    (hper : env.persist ≠ PersistOutcome.ok) :
    (loginStep env b).persistWarned = env.debug := by
  unfold loginStep
  simp [hs, he]

theorem dictGet_dictSet_self (l : List (String × String)) (k v : String) :
    dictGet (dictSet l k v) k = some v := by
  induction l with
  | nil => simp [dictSet, dictGet]
  | cons hd tl ih =>
      obtain ⟨k', v'⟩ := hd
      by_cases h : k' = k
      · simp [dictSet, dictGet, h]
      · simp [dictSet, dictGet, h, ih]

theorem dictGet_dictSet_other (l : List (String × String)) (k v j : String)
    (hj : j ≠ k) :
    dictGet (dictSet l k v) j = dictGet l j := by
  induction l with
  | nil => simp [dictSet, dictGet, Ne.symm hj]
  | cons hd tl ih =>
      obtain ⟨k', v'⟩ := hd
      by_cases h : k' = k
      · subst h
        simp [dictSet, dictGet, Ne.symm hj]
      · by_cases h2 : k' = j
        · subst h2
          simp [dictSet, dictGet, h]
        · simp [dictSet, dictGet, h, h2, ih]

/-! The claims. -/

/-- C1: for every stored credential file containing both a (truthy) token
and profile id, if the authenticated probe request returns HTTP status
200, then get_token returns that stored (token, profile_id) pair and
never prompts the user for email or password. -/
theorem C1_valid_stored_credential_reused (env : Env) (t p : String)
    (hfile : env.file = FileRead.content (some t) (some p))
    (ht : t ≠ "") (hp : p ≠ "") (hprobe : env.probe.status = 200) :
    (get_token env).outcome = Outcome.returned t p ∧ (get_token env).prompts = 0 := by
  rw [get_token_of_loadStep_some env t p true
        (loadStep_valid env t p hfile ht hp hprobe)]
  exact ⟨rfl, rfl⟩

theorem C1_valid_stored_credential_reused_witness :
    (get_token envValid).outcome = Outcome.returned "tok0" "pid0" ∧
      (get_token envValid).prompts = 0 :=
  C1_valid_stored_credential_reused envValid "tok0" "pid0" rfl
    (by decide) (by decide) rfl

/-- C2: for every run that reaches the interactive login (the load phase
produced no valid credential), if the login request returns a non-200
status or a 200 body carrying an errors key, the process terminates via
exit(1) — a non-zero exit code — and the credential file on disk is left
unchanged. -/
theorem C2_failed_login_exits_without_write (env : Env)
    (hload : (loadStep env).1 = none)
    (hbad : env.loginStatus ≠ 200 ∨ env.loginBody.hasErrors = true) :
    (∃ c, c ≠ 0 ∧ (get_token env).outcome = Outcome.exited c) ∧
      (get_token env).disk = Disk.initial := by
  have hsplit : loadStep env = ((loadStep env).1, (loadStep env).2) := rfl
  rw [hload] at hsplit
  rw [get_token_of_loadStep_none env (loadStep env).2 hsplit,
      loginStep_fail env (loadStep env).2 hbad]
  exact ⟨⟨1, one_ne_zero, rfl⟩, rfl⟩

theorem C2_failed_login_exits_without_write_witness :
    (∃ c, c ≠ 0 ∧ (get_token envBadLogin).outcome = Outcome.exited c) ∧
      (get_token envBadLogin).disk = Disk.initial :=
  C2_failed_login_exits_without_write envBadLogin rfl (Or.inl (by decide))

/-- C3: the validation probe classifies a stored credential as valid iff
the probe response has status 200, regardless of an application-level
errors list in the 200 body: even when the probe body carries errors,
get_token still returns the stored credential without prompting. -/
theorem C3_probe_body_errors_ignored (env : Env) (t p : String)
    (hfile : env.file = FileRead.content (some t) (some p))
    (ht : t ≠ "") (hp : p ≠ "") (hprobe : env.probe.status = 200)
    (herr : env.probe.hasErrors = true) :
    (get_token env).outcome = Outcome.returned t p ∧ (get_token env).prompts = 0 := by
  rw [get_token_of_loadStep_some env t p true
        (loadStep_valid env t p hfile ht hp hprobe)]
  exact ⟨rfl, rfl⟩

theorem C3_probe_body_errors_ignored_witness :
    (get_token envProbeErrs).outcome = Outcome.returned "tok0" "pid0" ∧
      (get_token envProbeErrs).prompts = 0 :=
  C3_probe_body_errors_ignored envProbeErrs "tok0" "pid0" rfl
    (by decide) (by decide) rfl rfl

/-- C4: for every probe response with a non-200 status, get_token does not
return the stored credential: it proceeds to the interactive login (one
prompt), and on a successful login the pair returned — and, when the
persist step succeeds, the pair written to disk — is the one from the
fresh login response. -/
theorem C4_invalid_probe_reauthenticates (env : Env) (t p : String)
    (hfile : env.file = FileRead.content (some t) (some p))
    (ht : t ≠ "") (hp : p ≠ "") (hprobe : env.probe.status ≠ 200) :
    (get_token env).prompts = 1 ∧
    (env.loginStatus = 200 → env.loginBody.hasErrors = false →
      (get_token env).outcome =
        Outcome.returned env.loginBody.token env.loginBody.profile_id ∧
      (env.persist = PersistOutcome.ok →
        (get_token env).disk =
          Disk.saved env.loginBody.token env.loginBody.profile_id (some 0o600))) := by
  rw [get_token_of_loadStep_none env true
        (loadStep_probe_fail env t p hfile ht hp hprobe)]
  refine ⟨loginStep_prompts env true, fun hs he => ?_⟩
  exact ⟨loginStep_success_outcome env true hs he,
    fun hper => loginStep_disk_ok env true hs he hper⟩

theorem C4_invalid_probe_reauthenticates_witness :
    (get_token envProbeFail).prompts = 1 ∧
    (get_token envProbeFail).outcome = Outcome.returned "lt0" "lp0" ∧
    (get_token envProbeFail).disk = Disk.saved "lt0" "lp0" (some 0o600) := by
  have h := C4_invalid_probe_reauthenticates envProbeFail "tok0" "pid0" rfl
    (by decide) (by decide) (by decide)
  exact ⟨h.1, (h.2 rfl rfl).1, (h.2 rfl rfl).2 rfl⟩

/-- C5: for every run where the credential file is missing or its read or
parse fails, get_token prompts for login exactly once; on a successful
login whose persist step does not raise, the file at the fixed path ends
up holding the new token and profile id with permissions 0600. -/
theorem C5_missing_or_corrupt_file_logs_in_once (env : Env)
    (hfile : env.file = FileRead.absent ∨ env.file = FileRead.readError) :
    (get_token env).prompts = 1 ∧
    (env.loginStatus = 200 → env.loginBody.hasErrors = false →
      (get_token env).outcome =
        Outcome.returned env.loginBody.token env.loginBody.profile_id ∧
      (env.persist = PersistOutcome.ok →
        (get_token env).disk =
          Disk.saved env.loginBody.token env.loginBody.profile_id (some 0o600))) := by
  rw [get_token_of_loadStep_none env false (loadStep_no_file env hfile)]
  refine ⟨loginStep_prompts env false, fun hs he => ?_⟩
  exact ⟨loginStep_success_outcome env false hs he,
    fun hper => loginStep_disk_ok env false hs he hper⟩

theorem C5_missing_or_corrupt_file_logs_in_once_witness :
    (get_token envAbsent).prompts = 1 ∧
    (get_token envAbsent).outcome = Outcome.returned "lt0" "lp0" ∧
    (get_token envAbsent).disk = Disk.saved "lt0" "lp0" (some 0o600) := by
  have h := C5_missing_or_corrupt_file_logs_in_once envAbsent (Or.inl rfl)
  exact ⟨h.1, (h.2 rfl rfl).1, (h.2 rfl rfl).2 rfl⟩

/-- C7 counterexample: in a concrete run where the login succeeds, the
write of the credential file fails, and the --debug flag is not set, no
warning is printed (the warning at main.py line 221 goes through
debug_print), refuting the claim that a warning is always logged on a
persist failure. -/
theorem C7_counterexample_no_warning_without_debug :
    envWriteFail.persist = PersistOutcome.writeFailed ∧
    envWriteFail.debug = false ∧
    (get_token envWriteFail).outcome = Outcome.returned "lt0" "lp0" ∧
    (get_token envWriteFail).persistWarned = false :=
  ⟨rfl, rfl, rfl, rfl⟩

/-- C7 (amended): when persisting the credential file fails after a
successful login, the failure is non-fatal and get_token still returns
the in-memory (token, profile_id) pair from the login; the warning is
printed exactly when the --debug flag is set, because it is issued via
debug_print. -/
theorem C7_persist_failure_nonfatal (env : Env)
    (hload : (loadStep env).1 = none)
    (hs : env.loginStatus = 200) (he : env.loginBody.hasErrors = false)
    (hper : env.persist ≠ PersistOutcome.ok) :
    (get_token env).outcome =
      Outcome.returned env.loginBody.token env.loginBody.profile_id ∧
    (get_token env).persistWarned = env.debug := by
  have hsplit : loadStep env = ((loadStep env).1, (loadStep env).2) := rfl
  rw [hload] at hsplit
  rw [get_token_of_loadStep_none env (loadStep env).2 hsplit]
  exact ⟨loginStep_success_outcome env (loadStep env).2 hs he,
    loginStep_warned env (loadStep env).2 hs he hper⟩

theorem C7_persist_failure_nonfatal_witness :
    (get_token envWriteFailDebug).outcome = Outcome.returned "lt0" "lp0" ∧
      (get_token envWriteFailDebug).persistWarned = envWriteFailDebug.debug :=
  C7_persist_failure_nonfatal envWriteFailDebug rfl rfl rfl (by decide)

/-- C9: if the credential file exists and parses but its token or
profile_id entry is missing or falsy, get_token sends no validation probe
at all and proceeds directly to the interactive login. -/
theorem C9_missing_keys_skip_probe (env : Env) (tok pid : Option String)
    (hfile : env.file = FileRead.content tok pid)
    (h : (truthy tok && truthy pid) = false) :
    (get_token env).probed = false ∧ (get_token env).prompts = 1 := by
  rw [get_token_of_loadStep_none env false (loadStep_not_truthy env tok pid hfile h)]
  exact ⟨loginStep_probed env false, loginStep_prompts env false⟩

theorem C9_missing_keys_skip_probe_witness :
    (get_token envNoKeys).probed = false ∧ (get_token envNoKeys).prompts = 1 :=
  C9_missing_keys_skip_probe envNoKeys (some "tok0") none rfl (by decide)

/-- C6: when the signed-URL fetch and the binary upload both succeed,
create_book_with_cover makes the book-creation call with variables whose
cover entry is "https://literal.club/covers/" concatenated with the key
from the signed-URL response; when either step fails, no book-creation
call is made and the function returns None. -/
theorem C6_cover_url_and_early_failure (env : CbcEnv) (bd : List (String × String)) :
    (∀ sud, get_signed_cover_url env.signedResp = some sud →
        upload_cover_image env.upload = true →
        (create_book_with_cover env bd).createCalled = true ∧
        (create_book_with_cover env bd).createVars =
          some (dictSet bd "cover" (coverUrlBase ++ sud.key)) ∧
        dictGet (dictSet bd "cover" (coverUrlBase ++ sud.key)) "cover" =
          some (coverUrlBase ++ sud.key)) ∧
    (get_signed_cover_url env.signedResp = none ∨
        upload_cover_image env.upload = false →
      (create_book_with_cover env bd).createCalled = false ∧
        (create_book_with_cover env bd).result = none) := by
  constructor
  · intro sud hsud hup
    have hres : create_book_with_cover env bd =
        { result := create_book env.createResp,
          bookData := dictSet bd "cover" (coverUrlBase ++ sud.key),
          createCalled := true,
          createVars := some (dictSet bd "cover" (coverUrlBase ++ sud.key)) } := by
      unfold create_book_with_cover
      rw [hsud, hup]
      rfl
    rw [hres]
    exact ⟨rfl, rfl, dictGet_dictSet_self bd "cover" _⟩
  · intro hfail
    have hres : create_book_with_cover env bd =
        { result := none, bookData := bd, createCalled := false,
          createVars := none } := by
      unfold create_book_with_cover
      rcases hfail with h | h
      · rw [h]
      · cases hsud : get_signed_cover_url env.signedResp with
        | none => rfl
        | some sud =>
            rw [h]
            rfl
    rw [hres]
    exact ⟨rfl, rfl⟩

theorem C6_cover_url_and_early_failure_witness :
    ((create_book_with_cover cbcOk bd0).createCalled = true ∧
     (create_book_with_cover cbcOk bd0).createVars =
       some (dictSet bd0 "cover" (coverUrlBase ++ "k0")) ∧
     dictGet (dictSet bd0 "cover" (coverUrlBase ++ "k0")) "cover" =
       some (coverUrlBase ++ "k0")) ∧
    ((create_book_with_cover cbcFail bd0).createCalled = false ∧
     (create_book_with_cover cbcFail bd0).result = none) :=
  ⟨(C6_cover_url_and_early_failure cbcOk bd0).1
      { signedUrl := "su0", key := "k0", fileName := "fn0" } rfl rfl,
   (C6_cover_url_and_early_failure cbcFail bd0).2 (Or.inl rfl)⟩

/-- C10: create_book_with_cover mutates the caller's book_data dict in
place: on success it sets the cover key to the derived URL while leaving
every other key unchanged, and on early failure it leaves book_data
entirely unchanged. -/
theorem C10_book_data_frame (env : CbcEnv) (bd : List (String × String)) :
    (∀ sud, get_signed_cover_url env.signedResp = some sud →
        upload_cover_image env.upload = true →
        dictGet (create_book_with_cover env bd).bookData "cover" =
          some (coverUrlBase ++ sud.key) ∧
        (∀ k, k ≠ "cover" →
          dictGet (create_book_with_cover env bd).bookData k = dictGet bd k)) ∧
    (get_signed_cover_url env.signedResp = none ∨
        upload_cover_image env.upload = false →
      (create_book_with_cover env bd).bookData = bd) := by
  constructor
  · intro sud hsud hup
    have hres : (create_book_with_cover env bd).bookData =
        dictSet bd "cover" (coverUrlBase ++ sud.key) := by
      unfold create_book_with_cover
      rw [hsud, hup]
      rfl
    rw [hres]
    exact ⟨dictGet_dictSet_self bd "cover" _,
      fun k hk => dictGet_dictSet_other bd "cover" _ k hk⟩
  · intro hfail
    unfold create_book_with_cover
    rcases hfail with h | h
    · rw [h]
    · cases hsud : get_signed_cover_url env.signedResp with
      | none => rfl
      | some sud =>
          rw [h]
          rfl

theorem C10_book_data_frame_witness :
    dictGet (create_book_with_cover cbcOk bd0).bookData "cover" =
      some (coverUrlBase ++ "k0") ∧
    dictGet (create_book_with_cover cbcOk bd0).bookData "title" =
      dictGet bd0 "title" ∧
    (create_book_with_cover cbcFail bd0).bookData = bd0 :=
  ⟨((C10_book_data_frame cbcOk bd0).1
      { signedUrl := "su0", key := "k0", fileName := "fn0" } rfl rfl).1,
   ((C10_book_data_frame cbcOk bd0).1
      { signedUrl := "su0", key := "k0", fileName := "fn0" } rfl rfl).2
      "title" (by decide),
   (C10_book_data_frame cbcFail bd0).2 (Or.inl rfl)⟩

/-- C8: a book whose subtitle is present and truthy renders as
"authors - ITALIC title: subtitle RESET"; a book with no subtitle renders
the same line without the ": subtitle" segment; the authors segment is
the comma-plus-space join of the author names, or the literal
"Unknown Author" when the author list is empty. -/
theorem C8_reading_list_rendering (b : Book) :
    (∀ s, b.subtitle = some s → s ≠ "" →
        renderBookLine b =
          authorsSegment b.authors ++ " - " ++ ITALIC ++ b.title ++
            ": " ++ s ++ RESET) ∧
    (b.subtitle = none →
        renderBookLine b =
          authorsSegment b.authors ++ " - " ++ ITALIC ++ b.title ++ RESET) ∧
    (b.authors = [] → authorsSegment b.authors = "Unknown Author") ∧
    (b.authors ≠ [] →
        authorsSegment b.authors =
          String.intercalate ", " (b.authors.map Author.name)) := by
  have hauth : (if b.authors.isEmpty then "Unknown Author"
      else String.intercalate ", " (b.authors.map Author.name)) =
      authorsSegment b.authors := by
    unfold authorsSegment
    cases b.authors with
    | nil => rfl
    | cons a as => simp
  refine ⟨fun s hs hne => ?_, fun hs => ?_, fun ha => ?_, fun ha => ?_⟩
  · unfold renderBookLine
    rw [hs, hauth]
    have hne' : (s == "") = false := by simp [hne]
    simp only [hne']
    simp [String.append_assoc]
  · unfold renderBookLine
    rw [hs, hauth]
    simp [String.append_assoc]
  · unfold authorsSegment
    simp [ha]
  · unfold authorsSegment
    simp [ha]

theorem C8_reading_list_rendering_witness :
    renderBookLine { title := "T", subtitle := some "S",
                     authors := [{ name := "A" }, { name := "B" }] } =
      authorsSegment [{ name := "A" }, { name := "B" }] ++ " - " ++ ITALIC ++
        "T" ++ ": " ++ "S" ++ RESET ∧
    renderBookLine { title := "T", subtitle := none, authors := [] } =
      authorsSegment [] ++ " - " ++ ITALIC ++ "T" ++ RESET ∧
    authorsSegment [] = "Unknown Author" ∧
    authorsSegment [{ name := "A" }, { name := "B" }] =
      String.intercalate ", "
        ([{ name := "A" }, { name := "B" }].map Author.name) :=
  ⟨(C8_reading_list_rendering
      { title := "T", subtitle := some "S",
        authors := [{ name := "A" }, { name := "B" }] }).1 "S" rfl (by decide),
   (C8_reading_list_rendering
      { title := "T", subtitle := none, authors := [] }).2.1 rfl,
   (C8_reading_list_rendering
      { title := "T", subtitle := none, authors := [] }).2.2.1 rfl,
   (C8_reading_list_rendering
      { title := "T", subtitle := some "S",
        authors := [{ name := "A" }, { name := "B" }] }).2.2.2 (by decide)⟩

end LiteralTools
